import Mathlib

/-!
Shallow embedding of the authentication / refresh-token lifecycle of the
Sipfinity backend (package `internal/services/auth.go`, `internal/utils`
validators and JWT helpers, GORM models in `internal/models`).

Modelling conventions:
* Machine time (`time.Now().Unix()`) is passed explicitly as a `Nat` of unix
  seconds in an effect record for each operation.
* A signed JWT string is modelled by its decoded content (`Utils.Jwt`):
  HS256 signing of a claim set with a given secret is deterministic and
  injective, so the token string is in bijection with
  (claims, secret, algorithm).  Structurally malformed strings, which
  `jwt.ParseWithClaims` rejects, are outside the type and always fail
  validation, so they are not represented.
* A bcrypt hash is modelled by the abstract `Models.HashedPassword` wrapper:
  `bcrypt.CompareHashAndPassword (GenerateFromPassword p) q` holds exactly
  when `p = q`, which the wrapper realises definitionally (salting is
  internal to the hash and not observable through `CheckPassword`).
* The database is a `DBState` of record lists; GORM `First` is `List.find?`,
  `Update`/`Save` are maps over the lists, `Create` appends and fails on a
  violation of the unique index on the token column.  The backing store is
  reliable except where the Go code has a distinct failure path that a spec
  claim is about; those failure points are injected through per-operation
  effect records (`RefreshFx.saveFails`, `ForgotFx.emailFails`, ...).
-/

namespace Utils

/-- Character class `[a-zA-Z0-9._%+-]` of the local part of the email
regular expression in `utils.IsValidEmail`. -/
def isLocalChar (c : Char) : Bool :=
  c.isAlphanum || c = '.' || c = '_' || c = '%' || c = '+' || c = '-'

/-- Non-dot characters admitted by the domain class `[a-zA-Z0-9.-]`
(dots are handled by splitting the domain on them). -/
def isHostLabelChar (c : Char) : Bool :=
  c.isAlphanum || c = '-'

/-- Split a character list at every occurrence of `sep`; always returns a
non-empty list of (possibly empty) segments. -/
def splitOnChar (sep : Char) : List Char → List (List Char)
  | [] => [[]]
  | c :: cs =>
    match splitOnChar sep cs with
    | [] => [[c]]
    | r :: rs => if c = sep then [] :: r :: rs else (c :: r) :: rs

/-- The domain side of the regular expression,
`[a-zA-Z0-9.-]+\.[a-zA-Z]{2,}` anchored at the end of the string: the
suffix after the last dot is an alphabetic TLD of length at least two, and
the part before that dot is non-empty and drawn from `[a-zA-Z0-9.-]`. -/
def domainMatches (dom : List Char) : Bool :=
  match (splitOnChar '.' dom).reverse with
  | tld :: front :: rest =>
    decide (tld.length ≥ 2) && tld.all Char.isAlpha &&
    (!front.isEmpty || !rest.isEmpty) &&
    (front :: rest).all (fun lab => lab.all isHostLabelChar)
  | _ => false

/-- `utils.IsValidEmail`: full-string match of
`^[a-zA-Z0-9._%+-]+@[a-zA-Z0-9.-]+\.[a-zA-Z]{2,}$`.  Neither character
class contains `@`, so a match has exactly one `@`. -/
def IsValidEmail (email : String) : Bool :=
  match splitOnChar '@' email.data with
  | [loc, dom] => !loc.isEmpty && loc.all isLocalChar && domainMatches dom
  | _ => false

/-- `utils.IsValidPassword`: length at least 8. -/
def IsValidPassword (password : String) : Bool :=
  password.length ≥ 8

/-- `utils.IsValidRole`: member of `{"admin", "customer"}`. -/
def IsValidRole (role : String) : Bool :=
  role = "admin" || role = "customer"

/-- `utils.SanitizeString`: `strings.TrimSpace`. -/
def SanitizeString (input : String) : String :=
  input.trim

end Utils

namespace Models

/-- Abstract bcrypt digest: verification of a candidate against the digest
of `pw` succeeds exactly when the candidate equals `pw`. -/
structure HashedPassword where
  pw : String
  deriving Repr, DecidableEq

/-- `bcrypt.GenerateFromPassword` (the `BeforeCreate` hook /
`UpdatePassword`), abstracted to the injective constructor. -/
def hashPassword (password : String) : HashedPassword :=
  ⟨password⟩

/-- `models.User` (timestamps, which no operation reads, are omitted). -/
structure User where
  id : Nat
  email : String
  password : HashedPassword
  firstName : String
  lastName : String
  phoneNumber : String
  role : String
  isActive : Bool
  deriving Repr, DecidableEq

/-- `User.CheckPassword`: `bcrypt.CompareHashAndPassword` of the stored
digest against the candidate. -/
def User.CheckPassword (u : User) (password : String) : Bool :=
  decide (u.password = hashPassword password)

/-- `User.UpdatePassword`: re-hash and store. -/
def User.UpdatePassword (u : User) (newPassword : String) : User :=
  { u with password := hashPassword newPassword }

end Models

namespace Utils

/-- JWT signing method; `ValidateToken` only accepts the HMAC family
(`jwt.SigningMethodHMAC`), of which generation uses HS256. -/
inductive SigningMethod where
  | HS256
  | RS256
  deriving Repr, DecidableEq

def SigningMethod.isHMAC : SigningMethod → Bool
  | .HS256 => true
  | .RS256 => false

/-- `utils.Claims`: custom fields plus the registered claims the generator
sets (`ExpiresAt`, `IssuedAt`, `NotBefore`, `Subject`). -/
structure Claims where
  userID : Nat
  email : String
  role : String
  type : String
  expiresAt : Nat
  issuedAt : Nat
  notBefore : Nat
  subject : String
  deriving Repr, DecidableEq

/-- A signed token string, represented by its decoded content (see the
header comment: HS256 serialization is a bijection). -/
structure Jwt where
  claims : Claims
  secret : String
  method : SigningMethod
  deriving Repr, DecidableEq

/-- `utils.TokenPair`. -/
structure TokenPair where
  accessToken : Jwt
  refreshToken : Jwt
  accessTokenExpiresAt : Nat
  refreshTokenExpiresAt : Nat
  deriving Repr, DecidableEq

/-- `utils.GenerateAccessToken`: 15-minute expiry, type `"access"`,
`iat = nbf = now`, subject = email, HS256 with the shared secret. -/
def GenerateAccessToken (userID : Nat) (email role jwtSecret : String) (now : Nat) :
    Jwt × Nat :=
  (⟨⟨userID, email, role, "access", now + 15 * 60, now, now, email⟩, jwtSecret, .HS256⟩,
    now + 15 * 60)

/-- `utils.GenerateRefreshToken`: 7-day expiry, type `"refresh"`. -/
def GenerateRefreshToken (userID : Nat) (email role jwtSecret : String) (now : Nat) :
    Jwt × Nat :=
  (⟨⟨userID, email, role, "refresh", now + 7 * 24 * 60 * 60, now, now, email⟩, jwtSecret, .HS256⟩,
    now + 7 * 24 * 60 * 60)

/-- `utils.GenerateTokenPair`. -/
def GenerateTokenPair (userID : Nat) (email role jwtSecret : String) (now : Nat) :
    TokenPair :=
  let a := GenerateAccessToken userID email role jwtSecret now
  let r := GenerateRefreshToken userID email role jwtSecret now
  ⟨a.1, r.1, a.2, r.2⟩

/-- `utils.ValidateToken`: requires an HMAC signing method, a signature
under the configured secret, and (jwt/v5 default validation) `now < exp`,
`iat ≤ now`, `nbf ≤ now`; returns the decoded claims. -/
def ValidateToken (tok : Jwt) (jwtSecret : String) (now : Nat) : Option Claims :=
  if tok.method.isHMAC && decide (tok.secret = jwtSecret) &&
      decide (now < tok.claims.expiresAt) &&
      decide (tok.claims.issuedAt ≤ now) && decide (tok.claims.notBefore ≤ now) then
    some tok.claims
  else
    none

end Utils

namespace Models

/-- `models.RefreshToken` row: unique token string, owner, expiry,
revocation flag. -/
structure RefreshToken where
  id : Nat
  userId : Nat
  token : Utils.Jwt
  expiresAt : Nat
  isRevoked : Bool
  deriving Repr, DecidableEq

/-- `models.PasswordResetToken` row. -/
structure PasswordResetToken where
  id : Nat
  userId : Nat
  token : String
  expiresAt : Nat
  isUsed : Bool
  deriving Repr, DecidableEq

end Models

/-- The backing store visible to `AuthService`. -/
structure DBState where
  users : List Models.User
  refreshTokens : List Models.RefreshToken
  resetTokens : List Models.PasswordResetToken
  nextUserId : Nat
  nextRefreshId : Nat
  nextResetId : Nat
  deriving Repr, DecidableEq

namespace DB

/-- `db.Where("email = ? AND is_active = ?", email, true).First(&user)`. -/
def findActiveUserByEmail (db : DBState) (email : String) : Option Models.User :=
  db.users.find? (fun u => decide (u.email = email) && u.isActive)

/-- `db.Where("email = ?", email).First(&user)` (any active state). -/
def findUserByEmail (db : DBState) (email : String) : Option Models.User :=
  db.users.find? (fun u => decide (u.email = email))

/-- `db.Where("id = ? AND is_active = ?", id, true).First(&user)`. -/
def findActiveUserById (db : DBState) (uid : Nat) : Option Models.User :=
  db.users.find? (fun u => decide (u.id = uid) && u.isActive)

/-- `db.Save(&user)`: write the row with the user's primary key. -/
def saveUser (db : DBState) (u : Models.User) : DBState :=
  { db with users := db.users.map (fun x => if x.id = u.id then u else x) }

/-- `db.Create(&user)` with id assignment (no unique-email conflict is
reachable: callers pre-check existence). -/
def insertUser (db : DBState) (mk : Nat → Models.User) : Models.User × DBState :=
  let u := mk db.nextUserId
  (u, { db with users := db.users ++ [u], nextUserId := db.nextUserId + 1 })

/-- `db.Model(&RefreshToken{}).Where("user_id = ?", uid).Update("is_revoked", true)`. -/
def revokeAllRefreshForUser (db : DBState) (uid : Nat) : DBState :=
  { db with refreshTokens :=
      db.refreshTokens.map (fun r => if r.userId = uid then { r with isRevoked := true } else r) }

/-- `db.Model(&RefreshToken{}).Where("token = ?", tok).Update("is_revoked", true)`. -/
def revokeRefreshByToken (db : DBState) (tok : Utils.Jwt) : DBState :=
  { db with refreshTokens :=
      db.refreshTokens.map (fun r => if r.token = tok then { r with isRevoked := true } else r) }

/-- `db.Where("token = ? AND is_revoked = ? AND expires_at > ?", tok, false, now).First`. -/
def findValidRefreshRec (db : DBState) (tok : Utils.Jwt) (now : Nat) :
    Option Models.RefreshToken :=
  db.refreshTokens.find?
    (fun r => decide (r.token = tok) && !r.isRevoked && decide (now < r.expiresAt))

/-- `tx.Save(&refreshToken)`: write the row with the record's primary key. -/
def saveRefreshRec (db : DBState) (rec : Models.RefreshToken) : DBState :=
  { db with refreshTokens := db.refreshTokens.map (fun r => if r.id = rec.id then rec else r) }

/-- `db.Create(&RefreshToken{...})`: append a fresh row; fails on the
unique index over the token column. -/
def insertRefreshRec (db : DBState) (uid : Nat) (tok : Utils.Jwt) (expiresAt : Nat) :
    Option DBState :=
  if db.refreshTokens.any (fun r => decide (r.token = tok)) then
    none
  else
    some { db with
      refreshTokens := db.refreshTokens ++ [⟨db.nextRefreshId, uid, tok, expiresAt, false⟩],
      nextRefreshId := db.nextRefreshId + 1 }

/-- `db.Model(&PasswordResetToken{}).Where("user_id = ? AND is_used = ?", uid, false).Update("is_used", true)`. -/
def markAllUnusedResetUsed (db : DBState) (uid : Nat) : DBState :=
  { db with resetTokens :=
      db.resetTokens.map (fun r =>
        if r.userId = uid ∧ r.isUsed = false then { r with isUsed := true } else r) }

/-- `db.Where("token = ? AND is_used = ? AND expires_at > ?", tok, false, now).First`. -/
def findValidResetRec (db : DBState) (tok : String) (now : Nat) :
    Option Models.PasswordResetToken :=
  db.resetTokens.find?
    (fun r => decide (r.token = tok) && !r.isUsed && decide (now < r.expiresAt))

/-- `db.Save(&resetToken)`. -/
def saveResetRec (db : DBState) (rec : Models.PasswordResetToken) : DBState :=
  { db with resetTokens := db.resetTokens.map (fun r => if r.id = rec.id then rec else r) }

/-- `db.Create(&PasswordResetToken{...})`: append; fails on the unique
index over the token column. -/
def insertResetRec (db : DBState) (uid : Nat) (tok : String) (expiresAt : Nat) :
    Option DBState :=
  if db.resetTokens.any (fun r => decide (r.token = tok)) then
    none
  else
    some { db with
      resetTokens := db.resetTokens ++ [⟨db.nextResetId, uid, tok, expiresAt, false⟩],
      nextResetId := db.nextResetId + 1 }

end DB

namespace AuthService

/-- `services.LoginRequest`. -/
structure LoginRequest where
  email : String
  password : String
  isAdmin : Bool
  deriving Repr, DecidableEq

/-- `services.SignupRequest`. -/
structure SignupRequest where
  email : String
  password : String
  firstName : String
  lastName : String
  phoneNumber : String
  role : String
  deriving Repr, DecidableEq

/-- `services.AuthResponse` / `types.AuthResponse`. -/
structure AuthResponse where
  token : Utils.TokenPair
  user : Models.User
  deriving Repr, DecidableEq

/-- Environment of one `Login` call: current unix time, plus the two
failure points the Go code checks (`utils.GenerateTokenPair` erroring,
`db.Create` of the new refresh row erroring). -/
structure LoginFx where
  now : Nat
  genFails : Bool
  createFails : Bool
  deriving Repr, DecidableEq

/-- `(*AuthService).Login` (auth.go:187-250).  The revoke-all update at
line 216 is not inside a transaction: it persists even when a later step
fails. -/
def Login (fx : LoginFx) (jwtSecret : String) (req : LoginRequest) (db : DBState) :
    Except String AuthResponse × DBState :=
  if !Utils.IsValidEmail req.email then
    (.error "invalid email format", db)
  else
    let role := if req.isAdmin then "admin" else "customer"
    match DB.findActiveUserByEmail db req.email with
    | none => (.error "invalid credentials", db)
    | some user =>
      if !user.CheckPassword req.password then
        (.error "invalid credentials", db)
      else if user.role ≠ role then
        (.error "invalid credentials", db)
      else
        let db1 := DB.revokeAllRefreshForUser db user.id
        if fx.genFails then
          (.error "failed to generate tokens", db1)
        else
          let pair := Utils.GenerateTokenPair user.id user.email user.role jwtSecret fx.now
          if fx.createFails then
            (.error "failed to store refresh token", db1)
          else
            match DB.insertRefreshRec db1 user.id pair.refreshToken pair.refreshTokenExpiresAt with
            | none => (.error "failed to store refresh token", db1)
            | some db2 => (.ok ⟨pair, user⟩, db2)

/-- Environment of one `RefreshToken` call: current unix time, plus the
failure points inside the transaction (`tx.Save` of the revoked row,
`utils.GenerateTokenPair`, `tx.Create` of the new row). -/
structure RefreshFx where
  now : Nat
  saveFails : Bool
  genFails : Bool
  createFails : Bool
  deriving Repr, DecidableEq

/-- `(*AuthService).RefreshToken` (auth.go:253-321).  The revoke-old /
create-new steps run in a transaction: every failure branch rolls back, so
the pre-call state is returned on error. -/
def RefreshToken (fx : RefreshFx) (jwtSecret : String) (tok : Utils.Jwt) (db : DBState) :
    Except String AuthResponse × DBState :=
  match Utils.ValidateToken tok jwtSecret fx.now with
  | none => (.error "invalid refresh token", db)
  | some claims =>
    if claims.type ≠ "refresh" then
      (.error "invalid token type", db)
    else
      match DB.findValidRefreshRec db tok fx.now with
      | none => (.error "refresh token not found or expired", db)
      | some rec =>
        match DB.findActiveUserById db rec.userId with
        | none => (.error "user not found", db)
        | some user =>
          if fx.saveFails then
            (.error "failed to revoke old token", db)
          else
            let tx1 := DB.saveRefreshRec db { rec with isRevoked := true }
            if fx.genFails then
              (.error "failed to generate new tokens", db)
            else
              let pair := Utils.GenerateTokenPair user.id user.email user.role jwtSecret fx.now
              if fx.createFails then
                (.error "failed to store new refresh token", db)
              else
                match DB.insertRefreshRec tx1 user.id pair.refreshToken
                    pair.refreshTokenExpiresAt with
                | none => (.error "failed to store new refresh token", db)
                | some tx2 => (.ok ⟨pair, user⟩, tx2)

/-- `(*AuthService).Logout` (auth.go:324-329). -/
def Logout (tok : Utils.Jwt) (db : DBState) : Except String Unit × DBState :=
  (.ok (), DB.revokeRefreshByToken db tok)

/-- `(*AuthService).LogoutAll` (auth.go:331-336). -/
def LogoutAll (uid : Nat) (db : DBState) : Except String Unit × DBState :=
  (.ok (), DB.revokeAllRefreshForUser db uid)

/-- Environment of one `ForgotPassword` call: current unix time, the
hex-encoded output of `generateSecureToken`'s `crypto/rand` read, whether
that read fails, and whether the SMTP send fails (the Go code only logs a
send failure, so the result must not depend on `emailFails`). -/
structure ForgotFx where
  now : Nat
  nonce : String
  genFails : Bool
  emailFails : Bool
  deriving Repr, DecidableEq

/-- `(*AuthService).ForgotPassword` (auth.go:356-393).  A missing or
inactive account returns plain success; the error of the mark-used update
and of the email send are discarded by the Go code. -/
def ForgotPassword (fx : ForgotFx) (email : String) (db : DBState) :
    Except String Unit × DBState :=
  if !Utils.IsValidEmail email then
    (.error "invalid email format", db)
  else
    match DB.findActiveUserByEmail db email with
    | none => (.ok (), db)
    | some user =>
      if fx.genFails then
        (.error "failed to generate reset token", db)
      else
        let db1 := DB.markAllUnusedResetUsed db user.id
        match DB.insertResetRec db1 user.id fx.nonce (fx.now + 60 * 60) with
        | none => (.error "failed to create reset token", db1)
        | some db2 => (.ok (), db2)

/-- `(*AuthService).ResetPassword` (auth.go:395-427).  The save of the
used flag and the revoke-all update have their errors discarded by the Go
code; with a reliable store they apply unconditionally. -/
def ResetPassword (now : Nat) (tok newPassword : String) (db : DBState) :
    Except String Unit × DBState :=
  if !Utils.IsValidPassword newPassword then
    (.error "password must be at least 8 characters", db)
  else
    match DB.findValidResetRec db tok now with
    | none => (.error "invalid or expired reset token", db)
    | some rec =>
      match DB.findActiveUserById db rec.userId with
      | none => (.error "user not found", db)
      | some user =>
        let db1 := DB.saveUser db (user.UpdatePassword newPassword)
        let db2 := DB.saveResetRec db1 { rec with isUsed := true }
        (.ok (), DB.revokeAllRefreshForUser db2 user.id)

/-- `(*AuthService).ChangePassword` (auth.go:429-452). -/
def ChangePassword (uid : Nat) (currentPassword newPassword : String) (db : DBState) :
    Except String Unit × DBState :=
  if !Utils.IsValidPassword newPassword then
    (.error "password must be at least 8 characters", db)
  else
    match DB.findActiveUserById db uid with
    | none => (.error "user not found", db)
    | some user =>
      if !user.CheckPassword currentPassword then
        (.error "current password is incorrect", db)
      else
        (.ok (), DB.saveUser db (user.UpdatePassword newPassword))

/-- `(*AuthService).ValidateResetToken` (auth.go:454-467): read-only. -/
def ValidateResetToken (now : Nat) (tok : String) (db : DBState) :
    Except String Models.User × DBState :=
  match DB.findValidResetRec db tok now with
  | none => (.error "invalid or expired reset token", db)
  | some rec =>
    match DB.findActiveUserById db rec.userId with
    | none => (.error "user not found", db)
    | some user => (.ok user, db)

/-- Environment of one `Signup` call: time, the external validation
service's verdicts (`none` models the service call erroring; the service
itself is non-nil in the deployed wiring), and the checked failure points. -/
structure SignupFx where
  now : Nat
  svcEmailVerdict : Option Bool
  svcPhoneVerdict : Option Bool
  genFails : Bool
  createUserFails : Bool
  createRefreshFails : Bool
  deriving Repr, DecidableEq

/-- `(*AuthService).Signup` (auth.go:84-185). -/
def Signup (fx : SignupFx) (jwtSecret : String) (req : SignupRequest) (db : DBState) :
    Except String AuthResponse × DBState :=
  if !Utils.IsValidEmail req.email then
    (.error "invalid email format", db)
  else if !Utils.IsValidPassword req.password then
    (.error "password must be at least 8 characters", db)
  else
    match fx.svcEmailVerdict with
    | none => (.error "email validation failed", db)
    | some false => (.error "email address is not valid or deliverable", db)
    | some true =>
      let phoneOk : Except String Unit :=
        if req.phoneNumber ≠ "" then
          match fx.svcPhoneVerdict with
          | none => .error "phone validation failed"
          | some false => .error "phone number is not valid"
          | some true => .ok ()
        else .ok ()
      match phoneOk with
      | .error e => (.error e, db)
      | .ok () =>
        let role := if req.role = "" then "customer" else req.role
        if !Utils.IsValidRole role then
          (.error "invalid role", db)
        else
          match DB.findUserByEmail db req.email with
          | some _ => (.error "user already exists", db)
          | none =>
            if fx.createUserFails then
              (.error "failed to create user", db)
            else
              let r := DB.insertUser db (fun uid =>
                ⟨uid, Utils.SanitizeString req.email, Models.hashPassword req.password,
                  Utils.SanitizeString req.firstName, Utils.SanitizeString req.lastName,
                  Utils.SanitizeString req.phoneNumber, role, true⟩)
              let user := r.1
              let db1 := r.2
              if fx.genFails then
                (.error "failed to generate tokens", db1)
              else
                let pair := Utils.GenerateTokenPair user.id user.email user.role jwtSecret fx.now
                if fx.createRefreshFails then
                  (.error "failed to store refresh token", db1)
                else
                  match DB.insertRefreshRec db1 user.id pair.refreshToken
                      pair.refreshTokenExpiresAt with
                  | none => (.error "failed to store refresh token", db1)
                  | some db2 => (.ok ⟨pair, user⟩, db2)

end AuthService

/-! ### Invariants of the store -/

deriving instance DecidableEq for Except

/-- The unique index on `refresh_tokens.token`: no two rows carry the same
token string. -/
def TokensUnique (rs : List Models.RefreshToken) : Prop :=
  ∀ r1 ∈ rs, ∀ r2 ∈ rs, r1.token = r2.token → r1 = r2

/-- The unique index on `password_reset_tokens.token`. -/
def ResetTokensUnique (rs : List Models.PasswordResetToken) : Prop :=
  ∀ r1 ∈ rs, ∀ r2 ∈ rs, r1.token = r2.token → r1 = r2

/-- At most one unused, unexpired reset token per identity (the §3
invariant of the spec), relative to clock reading `now`. -/
def AtMostOneActiveReset (now : Nat) (rs : List Models.PasswordResetToken) : Prop :=
  ∀ r1 ∈ rs, ∀ r2 ∈ rs, r1.userId = r2.userId →
    r1.isUsed = false → now < r1.expiresAt →
    r2.isUsed = false → now < r2.expiresAt → r1 = r2

/-! ### A concrete store used to exercise the claims -/

namespace Scenario

def uW : Models.User :=
  ⟨1, "a@b.co", Models.hashPassword "password1", "", "", "", "customer", true⟩

def tW : Utils.Jwt := (Utils.GenerateRefreshToken 1 "a@b.co" "customer" "s" 0).1

def db0W : DBState := ⟨[uW], [⟨1, 1, tW, 604800, false⟩], [], 2, 2, 1⟩

def dbEmptyW : DBState := ⟨[], [], [], 1, 1, 1⟩

def fxRW : AuthService.RefreshFx := ⟨100, false, false, false⟩

def respW : AuthService.AuthResponse :=
  ⟨Utils.GenerateTokenPair 1 "a@b.co" "customer" "s" 100, uW⟩

def db1W : DBState := (AuthService.RefreshToken fxRW "s" tW db0W).2

def fxLW : AuthService.LoginFx := ⟨50, false, false⟩

def reqW : AuthService.LoginRequest := ⟨"a@b.co", "password1", false⟩

def respLW : AuthService.AuthResponse :=
  ⟨Utils.GenerateTokenPair 1 "a@b.co" "customer" "s" 50, uW⟩

def dbLW : DBState := (AuthService.Login fxLW "s" reqW db0W).2

def dbRW : DBState :=
  ⟨[uW], [⟨1, 1, tW, 604800, false⟩], [⟨1, 1, "rt", 7200, false⟩], 2, 2, 2⟩

def dbR2W : DBState := (AuthService.ResetPassword 100 "rt" "newpassword1" dbRW).2

def fxFW : AuthService.ForgotFx := ⟨100, "zz", false, false⟩

end Scenario

/-! ### Elementary lemmas about the embedded primitives -/

namespace Utils

theorem ValidateToken_eq_some_iff (tok : Jwt) (s : String) (now : Nat) (c : Claims) :
    ValidateToken tok s now = some c ↔
      (tok.method.isHMAC = true ∧ tok.secret = s ∧ now < tok.claims.expiresAt ∧
        tok.claims.issuedAt ≤ now ∧ tok.claims.notBefore ≤ now ∧ c = tok.claims) := by
  unfold ValidateToken
  split <;> simp_all
  exact eq_comm

end Utils

namespace DB

@[simp] theorem saveUser_refreshTokens (db : DBState) (u : Models.User) :
    (saveUser db u).refreshTokens = db.refreshTokens := rfl

@[simp] theorem saveUser_resetTokens (db : DBState) (u : Models.User) :
    (saveUser db u).resetTokens = db.resetTokens := rfl

@[simp] theorem revokeAllRefreshForUser_users (db : DBState) (uid : Nat) :
    (revokeAllRefreshForUser db uid).users = db.users := rfl

@[simp] theorem revokeAllRefreshForUser_resetTokens (db : DBState) (uid : Nat) :
    (revokeAllRefreshForUser db uid).resetTokens = db.resetTokens := rfl

@[simp] theorem revokeRefreshByToken_users (db : DBState) (tok : Utils.Jwt) :
    (revokeRefreshByToken db tok).users = db.users := rfl

@[simp] theorem revokeRefreshByToken_resetTokens (db : DBState) (tok : Utils.Jwt) :
    (revokeRefreshByToken db tok).resetTokens = db.resetTokens := rfl

@[simp] theorem saveRefreshRec_users (db : DBState) (rec : Models.RefreshToken) :
    (saveRefreshRec db rec).users = db.users := rfl

@[simp] theorem saveRefreshRec_resetTokens (db : DBState) (rec : Models.RefreshToken) :
    (saveRefreshRec db rec).resetTokens = db.resetTokens := rfl

@[simp] theorem markAllUnusedResetUsed_users (db : DBState) (uid : Nat) :
    (markAllUnusedResetUsed db uid).users = db.users := rfl

@[simp] theorem markAllUnusedResetUsed_refreshTokens (db : DBState) (uid : Nat) :
    (markAllUnusedResetUsed db uid).refreshTokens = db.refreshTokens := rfl

@[simp] theorem saveResetRec_users (db : DBState) (rec : Models.PasswordResetToken) :
    (saveResetRec db rec).users = db.users := rfl

@[simp] theorem saveResetRec_refreshTokens (db : DBState) (rec : Models.PasswordResetToken) :
    (saveResetRec db rec).refreshTokens = db.refreshTokens := rfl

@[simp] theorem insertUser_refreshTokens (db : DBState) (mk : Nat → Models.User) :
    (insertUser db mk).2.refreshTokens = db.refreshTokens := rfl

@[simp] theorem insertUser_resetTokens (db : DBState) (mk : Nat → Models.User) :
    (insertUser db mk).2.resetTokens = db.resetTokens := rfl

theorem findValidRefreshRec_eq_some {db : DBState} {tok : Utils.Jwt} {now : Nat}
    {rec : Models.RefreshToken} (h : findValidRefreshRec db tok now = some rec) :
    rec ∈ db.refreshTokens ∧ rec.token = tok ∧ rec.isRevoked = false ∧ now < rec.expiresAt := by
  refine ⟨List.mem_of_find?_eq_some h, ?_⟩
  have hp := List.find?_some h
  simp only [Bool.and_eq_true, decide_eq_true_eq, Bool.not_eq_true'] at hp
  exact ⟨hp.1.1, hp.1.2, hp.2⟩

theorem findValidRefreshRec_eq_none (db : DBState) (tok : Utils.Jwt) (now : Nat)
    (h : ∀ r ∈ db.refreshTokens, r.token = tok → r.isRevoked = true) :
    findValidRefreshRec db tok now = none := by
  apply List.find?_eq_none.2
  intro r hr
  simp only [Bool.and_eq_true, decide_eq_true_eq, Bool.not_eq_true', not_and]
  intro h1
  have hrev := h r hr h1.1
  simp [hrev] at h1

theorem findActiveUserById_eq_some {db : DBState} {uid : Nat} {u : Models.User}
    (h : findActiveUserById db uid = some u) :
    u ∈ db.users ∧ u.id = uid ∧ u.isActive = true := by
  refine ⟨List.mem_of_find?_eq_some h, ?_⟩
  have hp := List.find?_some h
  simp only [Bool.and_eq_true, decide_eq_true_eq] at hp
  exact hp

theorem findActiveUserByEmail_eq_some {db : DBState} {email : String} {u : Models.User}
    (h : findActiveUserByEmail db email = some u) :
    u ∈ db.users ∧ u.email = email ∧ u.isActive = true := by
  refine ⟨List.mem_of_find?_eq_some h, ?_⟩
  have hp := List.find?_some h
  simp only [Bool.and_eq_true, decide_eq_true_eq] at hp
  exact hp

theorem findValidResetRec_eq_some {db : DBState} {tok : String} {now : Nat}
    {rec : Models.PasswordResetToken} (h : findValidResetRec db tok now = some rec) :
    rec ∈ db.resetTokens ∧ rec.token = tok ∧ rec.isUsed = false ∧ now < rec.expiresAt := by
  refine ⟨List.mem_of_find?_eq_some h, ?_⟩
  have hp := List.find?_some h
  simp only [Bool.and_eq_true, decide_eq_true_eq, Bool.not_eq_true'] at hp
  exact ⟨hp.1.1, hp.1.2, hp.2⟩

theorem insertRefreshRec_eq_some {db : DBState} {uid : Nat} {tok : Utils.Jwt}
    {e : Nat} {db2 : DBState} (h : insertRefreshRec db uid tok e = some db2) :
    (∀ r ∈ db.refreshTokens, ¬(r.token = tok)) ∧
      db2 = { db with
        refreshTokens := db.refreshTokens ++ [⟨db.nextRefreshId, uid, tok, e, false⟩],
        nextRefreshId := db.nextRefreshId + 1 } := by
  unfold insertRefreshRec at h
  split at h <;> simp_all [List.any_eq_true]

theorem insertResetRec_eq_some {db : DBState} {uid : Nat} {tok : String}
    {e : Nat} {db2 : DBState} (h : insertResetRec db uid tok e = some db2) :
    (∀ r ∈ db.resetTokens, ¬(r.token = tok)) ∧
      db2 = { db with
        resetTokens := db.resetTokens ++ [⟨db.nextResetId, uid, tok, e, false⟩],
        nextResetId := db.nextResetId + 1 } := by
  unfold insertResetRec at h
  split at h <;> simp_all [List.any_eq_true]

theorem insertResetRec_isSome {db : DBState} {uid : Nat} {tok : String} {e : Nat}
    (h : ∀ r ∈ db.resetTokens, ¬(r.token = tok)) :
    insertResetRec db uid tok e = some { db with
      resetTokens := db.resetTokens ++ [⟨db.nextResetId, uid, tok, e, false⟩],
      nextResetId := db.nextResetId + 1 } := by
  unfold insertResetRec
  split
  · rename_i hc
    rw [List.any_eq_true] at hc
    obtain ⟨x, hx, hxt⟩ := hc
    exact absurd (by simpa using hxt) (h x hx)
  · rfl

end DB

/-! ### Inversion lemmas for the service operations -/

theorem RefreshToken_error_state (fx : AuthService.RefreshFx) (secret : String)
    (tok : Utils.Jwt) (db : DBState) (e : String)
    (h : (AuthService.RefreshToken fx secret tok db).1 = .error e) :
    (AuthService.RefreshToken fx secret tok db).2 = db := by
  rcases hrun : AuthService.RefreshToken fx secret tok db with ⟨r, db2⟩
  rw [hrun] at h
  unfold AuthService.RefreshToken at hrun
  repeat' split at hrun
  all_goals simp_all
  all_goals (split at hrun <;> simp_all)

theorem RefreshToken_ok_inv {fx : AuthService.RefreshFx} {secret : String} {tok : Utils.Jwt}
    {db : DBState} {resp : AuthService.AuthResponse} {db2 : DBState}
    (h : AuthService.RefreshToken fx secret tok db = (.ok resp, db2)) :
    ∃ rec user,
      Utils.ValidateToken tok secret fx.now = some tok.claims ∧
      tok.claims.type = "refresh" ∧
      DB.findValidRefreshRec db tok fx.now = some rec ∧
      DB.findActiveUserById db rec.userId = some user ∧
      DB.insertRefreshRec (DB.saveRefreshRec db { rec with isRevoked := true }) user.id
        (Utils.GenerateTokenPair user.id user.email user.role secret fx.now).refreshToken
        (Utils.GenerateTokenPair user.id user.email user.role secret fx.now).refreshTokenExpiresAt
        = some db2 ∧
      resp = ⟨Utils.GenerateTokenPair user.id user.email user.role secret fx.now, user⟩ := by
  unfold AuthService.RefreshToken at h
  repeat' (first | (split at h) | simp_all [Utils.ValidateToken_eq_some_iff])

theorem Login_ok_inv {fx : AuthService.LoginFx} {secret : String} {req : AuthService.LoginRequest}
    {db : DBState} {resp : AuthService.AuthResponse} {db2 : DBState}
    (h : AuthService.Login fx secret req db = (.ok resp, db2)) :
    ∃ user,
      Utils.IsValidEmail req.email = true ∧
      DB.findActiveUserByEmail db req.email = some user ∧
      user.CheckPassword req.password = true ∧
      user.role = (if req.isAdmin then "admin" else "customer") ∧
      DB.insertRefreshRec (DB.revokeAllRefreshForUser db user.id) user.id
        (Utils.GenerateTokenPair user.id user.email user.role secret fx.now).refreshToken
        (Utils.GenerateTokenPair user.id user.email user.role secret fx.now).refreshTokenExpiresAt
        = some db2 ∧
      resp = ⟨Utils.GenerateTokenPair user.id user.email user.role secret fx.now, user⟩ := by
  unfold AuthService.Login at h
  repeat' (first | (split at h) | simp_all)

theorem ResetPassword_ok_inv {now : Nat} {tok newPw : String} {db db2 : DBState}
    (h : AuthService.ResetPassword now tok newPw db = (.ok (), db2)) :
    Utils.IsValidPassword newPw = true ∧
    ∃ rec user,
      DB.findValidResetRec db tok now = some rec ∧
      DB.findActiveUserById db rec.userId = some user ∧
      db2 = DB.revokeAllRefreshForUser
        (DB.saveResetRec (DB.saveUser db (user.UpdatePassword newPw))
          { rec with isUsed := true }) user.id := by
  unfold AuthService.ResetPassword at h
  repeat' (first | (split at h) | simp_all)

theorem RefreshToken_fails_of_all_revoked (fx : AuthService.RefreshFx) (secret : String)
    (tok : Utils.Jwt) (db : DBState)
    (h : ∀ r ∈ db.refreshTokens, r.token = tok → r.isRevoked = true) :
    (AuthService.RefreshToken fx secret tok db).1 = .error "invalid refresh token" ∨
    (AuthService.RefreshToken fx secret tok db).1 = .error "invalid token type" ∨
    (AuthService.RefreshToken fx secret tok db).1 = .error "refresh token not found or expired" := by
  have hnone := DB.findValidRefreshRec_eq_none db tok fx.now h
  unfold AuthService.RefreshToken
  split
  · left; rfl
  · split
    · right; left; rfl
    · rw [hnone]
      right; right; rfl

theorem refresh_success_state {fx : AuthService.RefreshFx} {secret : String} {tok : Utils.Jwt}
    {db : DBState} {resp : AuthService.AuthResponse} {db2 : DBState}
    (huniq : TokensUnique db.refreshTokens)
    (h : AuthService.RefreshToken fx secret tok db = (.ok resp, db2)) :
    (∀ r ∈ db2.refreshTokens, r.token = tok → r.isRevoked = true) ∧
    tok.claims.type = "refresh" ∧
    (∃ newRec ∈ db2.refreshTokens, newRec.token = resp.token.refreshToken ∧
      newRec.isRevoked = false ∧ newRec.userId = resp.user.id) ∧
    db2.refreshTokens.countP (fun r => decide (r.token = resp.token.refreshToken)) = 1 ∧
    (∀ r ∈ db.refreshTokens, r.token = tok → r.userId = resp.user.id) ∧
    db2.users = db.users ∧ db2.resetTokens = db.resetTokens := by
  obtain ⟨rec, user, hval, hty, hfind, huser, hins, hresp⟩ := RefreshToken_ok_inv h
  obtain ⟨hmem, htok, hrev, hexp⟩ := DB.findValidRefreshRec_eq_some hfind
  obtain ⟨humem, huid, hact⟩ := DB.findActiveUserById_eq_some huser
  obtain ⟨hcol, hdb2⟩ := DB.insertRefreshRec_eq_some hins
  have hrecmem : ({ rec with isRevoked := true } : Models.RefreshToken) ∈
      (DB.saveRefreshRec db { rec with isRevoked := true }).refreshTokens := by
    have := List.mem_map_of_mem
      (fun r => if r.id = rec.id then { rec with isRevoked := true } else r) hmem
    simpa [DB.saveRefreshRec] using this
  have hne : tok ≠ (Utils.GenerateTokenPair user.id user.email user.role secret fx.now).refreshToken := by
    intro he
    exact hcol _ hrecmem (by simpa using htok.trans he)
  constructor
  · intro r hr htk
    rw [hdb2] at hr
    simp only [List.mem_append, List.mem_singleton] at hr
    rcases hr with hr | hr
    · simp only [DB.saveRefreshRec, List.mem_map] at hr
      obtain ⟨a, ha, hfa⟩ := hr
      by_cases hid : a.id = rec.id
      · rw [if_pos hid] at hfa
        rw [← hfa]
      · rw [if_neg hid] at hfa
        have hteq : a.token = tok := by rw [hfa]; exact htk
        have : a = rec := huniq a ha rec hmem (hteq.trans htok.symm)
        exact absurd (congrArg Models.RefreshToken.id this) hid
    · subst hr
      exact absurd htk.symm (by simpa using hne)
  refine ⟨hty, ?_, ?_, ?_, ?_, ?_⟩
  · refine ⟨⟨(DB.saveRefreshRec db { rec with isRevoked := true }).nextRefreshId, user.id,
      (Utils.GenerateTokenPair user.id user.email user.role secret fx.now).refreshToken,
      (Utils.GenerateTokenPair user.id user.email user.role secret fx.now).refreshTokenExpiresAt,
      false⟩, ?_, ?_, rfl, ?_⟩
    · rw [hdb2]
      simp
    · rw [hresp]
    · rw [hresp]
  · rw [hdb2, hresp]
    simp only [List.countP_append]
    have h0 : (DB.saveRefreshRec db { rec with isRevoked := true }).refreshTokens.countP
        (fun r => decide (r.token =
          (Utils.GenerateTokenPair user.id user.email user.role secret fx.now).refreshToken)) = 0 := by
      rw [List.countP_eq_zero]
      intro a ha
      simpa using hcol a ha
    rw [h0]
    simp [List.countP_cons]
  · intro r hr htk
    have : r = rec := huniq r hr rec hmem (htk.trans htok.symm)
    rw [this, hresp]
    exact huid.symm
  · rw [hdb2]
    rfl
  · rw [hdb2]
    rfl

theorem login_success_state {fx : AuthService.LoginFx} {secret : String}
    {req : AuthService.LoginRequest} {db : DBState} {resp : AuthService.AuthResponse}
    {db2 : DBState}
    (huniq : TokensUnique db.refreshTokens)
    (h : AuthService.Login fx secret req db = (.ok resp, db2)) :
    (∀ t : Utils.Jwt, (∃ rc ∈ db.refreshTokens, rc.token = t ∧ rc.userId = resp.user.id) →
      ∀ x ∈ db2.refreshTokens, x.token = t → x.isRevoked = true) ∧
    (∀ x ∈ db2.refreshTokens, x.userId = resp.user.id → x.isRevoked = false →
      x.token = resp.token.refreshToken) := by
  obtain ⟨user, hvalid, hfind, hpw, hrole, hins, hresp⟩ := Login_ok_inv h
  obtain ⟨hcol, hdb2⟩ := DB.insertRefreshRec_eq_some hins
  have huid : resp.user.id = user.id := by rw [hresp]
  constructor
  · rintro t ⟨rc, hrc, hrct, hrcu⟩ x hx hxt
    rw [hdb2] at hx
    simp only [List.mem_append, List.mem_singleton] at hx
    rcases hx with hx | hx
    · simp only [DB.revokeAllRefreshForUser, List.mem_map] at hx
      obtain ⟨a, ha, hfa⟩ := hx
      by_cases hid : a.userId = user.id
      · rw [if_pos hid] at hfa
        rw [← hfa]
      · rw [if_neg hid] at hfa
        have hteq : a.token = t := by rw [hfa]; exact hxt
        have : a = rc := huniq a ha rc hrc (hteq.trans hrct.symm)
        rw [this] at hid
        exact absurd (hrcu.trans huid) hid
    · subst hx
      have hrcmem : (if rc.userId = user.id then { rc with isRevoked := true } else rc) ∈
          (DB.revokeAllRefreshForUser db user.id).refreshTokens :=
        List.mem_map_of_mem _ hrc
      have hne := hcol _ hrcmem
      by_cases hid : rc.userId = user.id
      · rw [if_pos hid] at hne
        exact absurd (by simpa using (hrct.trans hxt.symm)) hne
      · exact absurd (hrcu.trans huid) hid
  · intro x hx hxu hxrev
    rw [hdb2] at hx
    simp only [List.mem_append, List.mem_singleton] at hx
    rcases hx with hx | hx
    · simp only [DB.revokeAllRefreshForUser, List.mem_map] at hx
      obtain ⟨a, ha, hfa⟩ := hx
      by_cases hid : a.userId = user.id
      · rw [if_pos hid] at hfa
        rw [← hfa] at hxrev
        simp at hxrev
      · rw [if_neg hid] at hfa
        rw [← hfa] at hxu
        exact absurd (hxu.trans huid) hid
    · subst hx
      rw [hresp]

theorem RefreshToken_fails_refresh_class (fx : AuthService.RefreshFx) (secret : String)
    (tok : Utils.Jwt) (db : DBState) (hty : tok.claims.type = "refresh")
    (h : ∀ r ∈ db.refreshTokens, r.token = tok → r.isRevoked = true) :
    (AuthService.RefreshToken fx secret tok db).1 = .error "invalid refresh token" ∨
    (AuthService.RefreshToken fx secret tok db).1 = .error "refresh token not found or expired" := by
  have hnone := DB.findValidRefreshRec_eq_none db tok fx.now h
  unfold AuthService.RefreshToken
  split
  · left; rfl
  next c hc =>
    have hcc : c = tok.claims :=
      ((Utils.ValidateToken_eq_some_iff tok secret fx.now c).1 hc).2.2.2.2.2
    split
    next hne =>
      rw [hcc, hty] at hne
      simp at hne
    · rw [hnone]
      right
      rfl

/-! ### Claim theorems -/

/-- C1: refresh rotation is strictly one-time-use.  If `RefreshToken`
succeeds on token `t` (under the unique-index invariant on the token
column), a second `RefreshToken` call with the same `t` on the resulting
state fails with an `InvalidRefreshToken`-class error — either the
signature/expiry validation rejects it at the later clock reading, or the
server-side record lookup fails because the first call revoked the row
(spec §7 groups both under `InvalidRefreshToken`). -/
theorem C1_refresh_one_time_use
    (fx1 fx2 : AuthService.RefreshFx) (secret : String) (tok : Utils.Jwt)
    (db db2 : DBState) (resp : AuthService.AuthResponse)
    (huniq : TokensUnique db.refreshTokens)
    (h : AuthService.RefreshToken fx1 secret tok db = (.ok resp, db2)) :
    (AuthService.RefreshToken fx2 secret tok db2).1 = .error "invalid refresh token" ∨
    (AuthService.RefreshToken fx2 secret tok db2).1 = .error "refresh token not found or expired" := by
  obtain ⟨hall, hty, _⟩ := refresh_success_state huniq h
  exact RefreshToken_fails_refresh_class fx2 secret tok db2 hty hall

/-- C2: refresh rotation is all-or-nothing.  If `RefreshToken` returns an
error, the store is exactly the pre-call store (in particular the
looked-up record is not revoked and no record was created); if it
succeeds, then together: every record carrying the presented token is
revoked, the presented token's old record belonged to the responding
identity, and exactly one record carrying the newly issued refresh token
exists — non-revoked and owned by that same identity. -/
theorem C2_refresh_rotation_atomic
    (fx : AuthService.RefreshFx) (secret : String) (tok : Utils.Jwt) (db : DBState)
    (huniq : TokensUnique db.refreshTokens) :
    (∀ e, (AuthService.RefreshToken fx secret tok db).1 = .error e →
      (AuthService.RefreshToken fx secret tok db).2 = db) ∧
    (∀ resp db2, AuthService.RefreshToken fx secret tok db = (.ok resp, db2) →
      (∀ r ∈ db2.refreshTokens, r.token = tok → r.isRevoked = true) ∧
      (∀ r ∈ db.refreshTokens, r.token = tok → r.userId = resp.user.id) ∧
      (∃ newRec ∈ db2.refreshTokens, newRec.token = resp.token.refreshToken ∧
        newRec.isRevoked = false ∧ newRec.userId = resp.user.id) ∧
      db2.refreshTokens.countP (fun r => decide (r.token = resp.token.refreshToken)) = 1) := by
  constructor
  · exact fun e => RefreshToken_error_state fx secret tok db e
  · intro resp db2 h
    obtain ⟨h1, _, h3, h4, h5, _⟩ := refresh_success_state huniq h
    exact ⟨h1, h5, h3, h4⟩

/-- C3: a successful `Login` revokes every refresh token previously issued
to that identity: any token `t` that had a record owned by the logged-in
identity fails a subsequent `RefreshToken` with an
`InvalidRefreshToken`-class error, and among the identity's records in the
post-login store only the pair returned by this `Login` is non-revoked. -/
theorem C3_login_revokes_prior_sessions
    (fx1 : AuthService.LoginFx) (fx2 : AuthService.RefreshFx) (secret : String)
    (req : AuthService.LoginRequest) (db db2 : DBState) (resp : AuthService.AuthResponse)
    (t : Utils.Jwt) (rec0 : Models.RefreshToken)
    (huniq : TokensUnique db.refreshTokens)
    (hmem : rec0 ∈ db.refreshTokens) (htok : rec0.token = t)
    (howner : rec0.userId = resp.user.id)
    (h : AuthService.Login fx1 secret req db = (.ok resp, db2)) :
    ((AuthService.RefreshToken fx2 secret t db2).1 = .error "invalid refresh token" ∨
     (AuthService.RefreshToken fx2 secret t db2).1 = .error "invalid token type" ∨
     (AuthService.RefreshToken fx2 secret t db2).1 = .error "refresh token not found or expired") ∧
    (∀ x ∈ db2.refreshTokens, x.userId = resp.user.id → x.isRevoked = false →
      x.token = resp.token.refreshToken) := by
  obtain ⟨hrevokes, honly⟩ := login_success_state huniq h
  refine ⟨?_, honly⟩
  exact RefreshToken_fails_of_all_revoked fx2 secret t db2
    (hrevokes t ⟨rec0, hmem, htok, howner⟩)

/-- C4: for a well-formed email, `Login` returns the one literal error
value `"invalid credentials"` (with the store untouched) in all three
failure cases — no active identity with the email, stored hash not
verifying the password, and role differing from the requested one — so
the caller cannot distinguish which predicate failed. -/
theorem C4_login_uniform_invalid_credentials
    (fx : AuthService.LoginFx) (secret : String) (req : AuthService.LoginRequest)
    (db : DBState) (hemail : Utils.IsValidEmail req.email = true) :
    (DB.findActiveUserByEmail db req.email = none →
      AuthService.Login fx secret req db = (.error "invalid credentials", db)) ∧
    (∀ user, DB.findActiveUserByEmail db req.email = some user →
      user.CheckPassword req.password = false →
      AuthService.Login fx secret req db = (.error "invalid credentials", db)) ∧
    (∀ user, DB.findActiveUserByEmail db req.email = some user →
      user.CheckPassword req.password = true →
      user.role ≠ (if req.isAdmin then "admin" else "customer") →
      AuthService.Login fx secret req db = (.error "invalid credentials", db)) := by
  refine ⟨?_, ?_, ?_⟩
  · intro hnone
    unfold AuthService.Login
    simp [hemail, hnone]
  · intro user hfind hpw
    unfold AuthService.Login
    simp [hemail, hfind, hpw]
  · intro user hfind hpw hrole
    unfold AuthService.Login
    simp [hemail, hfind, hpw, hrole]

/-- C8: after a successful `Login`, validating the returned access token
with the same secret, at any clock reading within its 15-minute lifetime,
yields claims carrying exactly the logged-in identity's id, email and
role, with type discriminator `"access"`. -/
theorem C8_login_validate_roundtrip
    (fx : AuthService.LoginFx) (secret : String) (req : AuthService.LoginRequest)
    (db db2 : DBState) (resp : AuthService.AuthResponse) (now2 : Nat)
    (h : AuthService.Login fx secret req db = (.ok resp, db2))
    (h1 : fx.now ≤ now2) (h2 : now2 < fx.now + 15 * 60) :
    ∃ c, Utils.ValidateToken resp.token.accessToken secret now2 = some c ∧
      c.userID = resp.user.id ∧ c.email = resp.user.email ∧ c.role = resp.user.role ∧
      c.type = "access" := by
  obtain ⟨user, _, _, _, _, _, hresp⟩ := Login_ok_inv h
  subst hresp
  refine ⟨(Utils.GenerateTokenPair user.id user.email user.role secret fx.now).accessToken.claims,
    ?_, rfl, rfl, rfl, rfl⟩
  rw [Utils.ValidateToken_eq_some_iff]
  refine ⟨rfl, rfl, ?_, ?_, ?_, rfl⟩ <;>
    simp [Utils.GenerateTokenPair, Utils.GenerateAccessToken] <;> omega

/-- C9: `ChangePassword` with a wrong current password (for an existing
active identity and a policy-valid new password) returns the credential
error and leaves the store — in particular the stored password hash and
every other field of the identity record — exactly unchanged. -/
theorem C9_change_password_wrong_current_no_effect
    (uid : Nat) (currentPassword newPassword : String) (db : DBState) (user : Models.User)
    (hlen : Utils.IsValidPassword newPassword = true)
    (hfind : DB.findActiveUserById db uid = some user)
    (hpw : user.CheckPassword currentPassword = false) :
    AuthService.ChangePassword uid currentPassword newPassword db =
      (.error "current password is incorrect", db) := by
  unfold AuthService.ChangePassword
  simp [hlen, hfind, hpw]

/-- C10: `ForgotPassword` rejects a syntactically malformed email with the
`"invalid email format"` error before any store access (the returned
store is the untouched input store), so the uniform-success guarantee
only applies to well-formed addresses. -/
theorem C10_forgot_password_rejects_malformed_email
    (fx : AuthService.ForgotFx) (email : String) (db : DBState)
    (h : Utils.IsValidEmail email = false) :
    AuthService.ForgotPassword fx email db = (.error "invalid email format", db) := by
  unfold AuthService.ForgotPassword
  simp [h]

/-- C7 counterexample: the claim quantifies over every email string, but
on the malformed address `"not-an-email"` `ForgotPassword` returns the
`"invalid email format"` error, not the uniform success the claim
asserts. -/
theorem C7_counterexample_malformed_email :
    (AuthService.ForgotPassword ⟨0, "n", false, false⟩ "not-an-email"
      ⟨[], [], [], 1, 1, 1⟩).1 = .error "invalid email format" := by
  decide

/-- C7 (amended): for every well-formed email string — provided the
random token generation succeeds and produces a token not already in the
store — `ForgotPassword` returns the same plain success whether or not an
active identity with that email exists, and an email-send failure does
not change the outcome (the result is literally independent of the
`emailFails` environment flag, which the Go code only logs). -/
theorem C7_forgot_password_enum_resistant
    (fx : AuthService.ForgotFx) (email : String) (db : DBState)
    (hvalid : Utils.IsValidEmail email = true)
    (hgen : fx.genFails = false)
    (hfresh : ∀ r ∈ db.resetTokens, ¬(r.token = fx.nonce)) :
    (AuthService.ForgotPassword fx email db).1 = .ok () ∧
    (∀ b, AuthService.ForgotPassword { fx with emailFails := b } email db =
      AuthService.ForgotPassword fx email db) := by
  constructor
  · unfold AuthService.ForgotPassword
    simp only [hvalid, Bool.not_true, Bool.false_eq_true, if_false, ite_false]
    cases hfind : DB.findActiveUserByEmail db email with
    | none => rfl
    | some user =>
      simp only [hgen, Bool.false_eq_true, if_false, ite_false]
      have hfresh2 : ∀ r ∈ (DB.markAllUnusedResetUsed db user.id).resetTokens,
          ¬(r.token = fx.nonce) := by
        intro r hr
        simp only [DB.markAllUnusedResetUsed, List.mem_map] at hr
        obtain ⟨a, ha, hfa⟩ := hr
        have : r.token = a.token := by
          rw [← hfa]
          split <;> rfl
        rw [this]
        exact hfresh a ha
      rw [DB.insertResetRec_isSome hfresh2]
  · intro b
    rfl

/-- C5: a successful `ResetPassword` (under the unique-index invariants
of the token columns) updates the owner's stored password hash to the
hash of the new password, marks every record carrying the presented reset
token used, and revokes all of the owner's refresh-token records, so that
any refresh token issued to that identity before the reset fails a
subsequent `RefreshToken` with an `InvalidRefreshToken`-class error. -/
theorem C5_reset_password_effects
    (now : Nat) (tok newPassword : String) (db db2 : DBState)
    (huniqT : TokensUnique db.refreshTokens)
    (huniqR : ResetTokensUnique db.resetTokens)
    (h : AuthService.ResetPassword now tok newPassword db = (.ok (), db2)) :
    ∃ rec, DB.findValidResetRec db tok now = some rec ∧
      (∀ u ∈ db2.users, u.id = rec.userId → u.password = Models.hashPassword newPassword) ∧
      (∀ r ∈ db2.resetTokens, r.token = tok → r.isUsed = true) ∧
      (∀ r ∈ db2.refreshTokens, r.userId = rec.userId → r.isRevoked = true) ∧
      (∀ (fx2 : AuthService.RefreshFx) (secret : String) (t : Utils.Jwt),
        (∃ rr ∈ db.refreshTokens, rr.token = t ∧ rr.userId = rec.userId) →
        ((AuthService.RefreshToken fx2 secret t db2).1 = .error "invalid refresh token" ∨
         (AuthService.RefreshToken fx2 secret t db2).1 = .error "invalid token type" ∨
         (AuthService.RefreshToken fx2 secret t db2).1 =
           .error "refresh token not found or expired")) := by
  obtain ⟨hvalid, rec, user, hfind, huser, hdb2⟩ := ResetPassword_ok_inv h
  obtain ⟨hrecmem, hrectok, hrecused, hrecexp⟩ := DB.findValidResetRec_eq_some hfind
  obtain ⟨humem, huid, hact⟩ := DB.findActiveUserById_eq_some huser
  have hrevoked : ∀ r ∈ db2.refreshTokens, r.userId = rec.userId → r.isRevoked = true := by
    intro r hr hu
    rw [hdb2] at hr
    simp only [DB.revokeAllRefreshForUser, DB.saveResetRec_refreshTokens,
      DB.saveUser_refreshTokens, List.mem_map] at hr
    obtain ⟨a, ha, hfa⟩ := hr
    by_cases hid : a.userId = user.id
    · rw [if_pos hid] at hfa
      rw [← hfa]
    · rw [if_neg hid] at hfa
      rw [← hfa] at hu
      exact absurd (hu.trans huid.symm) hid
  refine ⟨rec, hfind, ?_, ?_, hrevoked, ?_⟩
  · intro u hu huidm
    rw [hdb2] at hu
    simp only [DB.revokeAllRefreshForUser_users, DB.saveResetRec_users, DB.saveUser,
      List.mem_map] at hu
    obtain ⟨a, ha, hfa⟩ := hu
    by_cases hid : a.id = (user.UpdatePassword newPassword).id
    · rw [if_pos hid] at hfa
      rw [← hfa]
      rfl
    · rw [if_neg hid] at hfa
      rw [← hfa] at huidm
      exact absurd (by simpa [Models.User.UpdatePassword] using huidm.trans huid.symm) hid
  · intro r hr htok2
    rw [hdb2] at hr
    simp only [DB.revokeAllRefreshForUser_resetTokens, DB.saveResetRec, DB.saveUser_resetTokens,
      List.mem_map] at hr
    obtain ⟨a, ha, hfa⟩ := hr
    by_cases hid : a.id = ({ rec with isUsed := true } : Models.PasswordResetToken).id
    · rw [if_pos hid] at hfa
      rw [← hfa]
    · rw [if_neg hid] at hfa
      rw [← hfa] at htok2
      have : a = rec := huniqR a ha rec hrecmem (htok2.trans hrectok.symm)
      exact absurd (congrArg Models.PasswordResetToken.id this) hid
  · rintro fx2 secret t ⟨rr, hrrmem, hrrtok, hrruid⟩
    apply RefreshToken_fails_of_all_revoked
    intro x hx hxt
    have hxu : x.userId = rec.userId := by
      rw [hdb2] at hx
      simp only [DB.revokeAllRefreshForUser, DB.saveResetRec_refreshTokens,
        DB.saveUser_refreshTokens, List.mem_map] at hx
      obtain ⟨a, ha, hfa⟩ := hx
      have hxa : x.token = a.token ∧ x.userId = a.userId := by
        rw [← hfa]
        split <;> exact ⟨rfl, rfl⟩
      have : a = rr := huniqT a ha rr hrrmem ((hxa.1.symm.trans hxt).trans hrrtok.symm)
      rw [hxa.2, this, hrruid]
    exact hrevoked x hx hxu

/-! ### Reset-token projection facts used by the §3 invariant claim -/

namespace DB

theorem insertRefreshRec_resetTokens {db : DBState} {uid : Nat} {tok : Utils.Jwt}
    {e : Nat} {db2 : DBState} (h : insertRefreshRec db uid tok e = some db2) :
    db2.resetTokens = db.resetTokens := by
  rw [(insertRefreshRec_eq_some h).2]

theorem insertRefreshRec_isSome {db : DBState} {uid : Nat} {tok : Utils.Jwt} {e : Nat}
    (h : ∀ r ∈ db.refreshTokens, ¬(r.token = tok)) :
    insertRefreshRec db uid tok e = some { db with
      refreshTokens := db.refreshTokens ++ [⟨db.nextRefreshId, uid, tok, e, false⟩],
      nextRefreshId := db.nextRefreshId + 1 } := by
  unfold insertRefreshRec
  split
  · rename_i hc
    rw [List.any_eq_true] at hc
    obtain ⟨x, hx, hxt⟩ := hc
    exact absurd (by simpa using hxt) (h x hx)
  · rfl

@[simp] theorem insertRefreshRec_eq_some_iff {db : DBState} {uid : Nat} {tok : Utils.Jwt}
    {e : Nat} {db2 : DBState} :
    insertRefreshRec db uid tok e = some db2 ↔
      ((∀ r ∈ db.refreshTokens, ¬(r.token = tok)) ∧
        db2 = { db with
          refreshTokens := db.refreshTokens ++ [⟨db.nextRefreshId, uid, tok, e, false⟩],
          nextRefreshId := db.nextRefreshId + 1 }) := by
  constructor
  · intro h
    exact insertRefreshRec_eq_some h
  · rintro ⟨h1, rfl⟩
    exact insertRefreshRec_isSome h1

end DB

theorem Signup_resetTokens (fx : AuthService.SignupFx) (secret : String)
    (req : AuthService.SignupRequest) (db : DBState) :
    (AuthService.Signup fx secret req db).2.resetTokens = db.resetTokens := by
  rcases hrun : AuthService.Signup fx secret req db with ⟨r, db2⟩
  unfold AuthService.Signup at hrun
  repeat' (first | (split at hrun) | simp_all)
  all_goals ((try rw [← hrun.2]); (try simp))

theorem Login_resetTokens (fx : AuthService.LoginFx) (secret : String)
    (req : AuthService.LoginRequest) (db : DBState) :
    (AuthService.Login fx secret req db).2.resetTokens = db.resetTokens := by
  rcases hrun : AuthService.Login fx secret req db with ⟨r, db2⟩
  unfold AuthService.Login at hrun
  repeat' (first | (split at hrun) | simp_all)
  all_goals ((try rw [← hrun.2]); (try simp))

theorem RefreshToken_resetTokens (fx : AuthService.RefreshFx) (secret : String)
    (tok : Utils.Jwt) (db : DBState) :
    (AuthService.RefreshToken fx secret tok db).2.resetTokens = db.resetTokens := by
  rcases hrun : AuthService.RefreshToken fx secret tok db with ⟨r, db2⟩
  unfold AuthService.RefreshToken at hrun
  repeat' (first | (split at hrun) | simp_all)
  all_goals ((try rw [← hrun.2]); (try simp))

theorem Logout_resetTokens (tok : Utils.Jwt) (db : DBState) :
    (AuthService.Logout tok db).2.resetTokens = db.resetTokens := rfl

theorem LogoutAll_resetTokens (uid : Nat) (db : DBState) :
    (AuthService.LogoutAll uid db).2.resetTokens = db.resetTokens := rfl

theorem ValidateResetToken_resetTokens (now : Nat) (tok : String) (db : DBState) :
    (AuthService.ValidateResetToken now tok db).2.resetTokens = db.resetTokens := by
  rcases hrun : AuthService.ValidateResetToken now tok db with ⟨r, db2⟩
  unfold AuthService.ValidateResetToken at hrun
  repeat' (first | (split at hrun) | simp_all)

theorem ChangePassword_resetTokens (uid : Nat) (cur newPw : String) (db : DBState) :
    (AuthService.ChangePassword uid cur newPw db).2.resetTokens = db.resetTokens := by
  rcases hrun : AuthService.ChangePassword uid cur newPw db with ⟨r, db2⟩
  unfold AuthService.ChangePassword at hrun
  repeat' (first | (split at hrun) | simp_all)
  all_goals ((try rw [← hrun.2]); (try simp))

namespace DB

theorem insertResetRec_eq_some_iff {db : DBState} {uid : Nat} {tok : String}
    {e : Nat} {db2 : DBState} :
    insertResetRec db uid tok e = some db2 ↔
      ((∀ r ∈ db.resetTokens, ¬(r.token = tok)) ∧
        db2 = { db with
          resetTokens := db.resetTokens ++ [⟨db.nextResetId, uid, tok, e, false⟩],
          nextResetId := db.nextResetId + 1 }) := by
  constructor
  · intro h
    exact insertResetRec_eq_some h
  · rintro ⟨h1, rfl⟩
    exact insertResetRec_isSome h1

end DB

theorem atMostOne_after_mark (now uid : Nat) (rs : List Models.PasswordResetToken)
    (h : AtMostOneActiveReset now rs) :
    AtMostOneActiveReset now (rs.map (fun r =>
      if r.userId = uid ∧ r.isUsed = false then { r with isUsed := true } else r)) := by
  have key : ∀ x ∈ rs.map (fun r =>
      if r.userId = uid ∧ r.isUsed = false then { r with isUsed := true } else r),
      x.isUsed = false → x ∈ rs := by
    intro x hx hxu
    simp only [List.mem_map] at hx
    obtain ⟨a, ha, hfa⟩ := hx
    by_cases hc : a.userId = uid ∧ a.isUsed = false
    · rw [if_pos hc] at hfa
      rw [← hfa] at hxu
      simp at hxu
    · rw [if_neg hc] at hfa
      exact hfa ▸ ha
  intro r1 h1 r2 h2 huid hu1 he1 hu2 he2
  exact h r1 (key r1 h1 hu1) r2 (key r2 h2 hu2) huid hu1 he1 hu2 he2

theorem atMostOne_after_forgot (now uid nid e : Nat) (tokStr : String)
    (rs : List Models.PasswordResetToken) (h : AtMostOneActiveReset now rs) :
    AtMostOneActiveReset now
      ((rs.map (fun r =>
        if r.userId = uid ∧ r.isUsed = false then { r with isUsed := true } else r)) ++
        [⟨nid, uid, tokStr, e, false⟩]) := by
  have key : ∀ x ∈ rs.map (fun r =>
      if r.userId = uid ∧ r.isUsed = false then { r with isUsed := true } else r),
      x.isUsed = false → x ∈ rs ∧ ¬(x.userId = uid) := by
    intro x hx hxu
    simp only [List.mem_map] at hx
    obtain ⟨a, ha, hfa⟩ := hx
    by_cases hc : a.userId = uid ∧ a.isUsed = false
    · rw [if_pos hc] at hfa
      rw [← hfa] at hxu
      simp at hxu
    · rw [if_neg hc] at hfa
      rw [← hfa] at hxu ⊢
      exact ⟨ha, fun hu => hc ⟨hu, hxu⟩⟩
  intro r1 h1 r2 h2 huid hu1 he1 hu2 he2
  simp only [List.mem_append, List.mem_singleton] at h1 h2
  rcases h1 with h1 | h1 <;> rcases h2 with h2 | h2
  · exact h r1 (key r1 h1 hu1).1 r2 (key r2 h2 hu2).1 huid hu1 he1 hu2 he2
  · exact absurd (huid.trans (by rw [h2])) (key r1 h1 hu1).2
  · exact absurd (huid.symm.trans (by rw [h1])) (key r2 h2 hu2).2
  · rw [h1, h2]

theorem atMostOne_after_save_used (now : Nat) (rec' : Models.PasswordResetToken)
    (rs : List Models.PasswordResetToken) (hused : rec'.isUsed = true)
    (h : AtMostOneActiveReset now rs) :
    AtMostOneActiveReset now (rs.map (fun x => if x.id = rec'.id then rec' else x)) := by
  have key : ∀ x ∈ rs.map (fun x => if x.id = rec'.id then rec' else x),
      x.isUsed = false → x ∈ rs := by
    intro x hx hxu
    simp only [List.mem_map] at hx
    obtain ⟨a, ha, hfa⟩ := hx
    by_cases hc : a.id = rec'.id
    · rw [if_pos hc] at hfa
      rw [← hfa, hused] at hxu
      exact absurd hxu (by simp)
    · rw [if_neg hc] at hfa
      exact hfa ▸ ha
  intro r1 h1 r2 h2 huid hu1 he1 hu2 he2
  exact h r1 (key r1 h1 hu1) r2 (key r2 h2 hu2) huid hu1 he1 hu2 he2

theorem atMostOne_insert_forgot (now uid e : Nat) (tokStr : String) (db dbx : DBState)
    (hins : DB.insertResetRec (DB.markAllUnusedResetUsed db uid) uid tokStr e = some dbx)
    (h : AtMostOneActiveReset now db.resetTokens) :
    AtMostOneActiveReset now dbx.resetTokens := by
  rw [(DB.insertResetRec_eq_some hins).2]
  exact atMostOne_after_forgot now uid _ _ tokStr db.resetTokens h

theorem ForgotPassword_atMostOne (now : Nat) (fx : AuthService.ForgotFx) (email : String)
    (db : DBState) (h : AtMostOneActiveReset now db.resetTokens) :
    AtMostOneActiveReset now ((AuthService.ForgotPassword fx email db).2.resetTokens) := by
  rcases hrun : AuthService.ForgotPassword fx email db with ⟨r, db2⟩
  unfold AuthService.ForgotPassword at hrun
  repeat' (first | (split at hrun) | (simp only [] at hrun))
  all_goals (injection hrun with h1 h2; subst h2)
  all_goals (first
    | exact h
    | exact atMostOne_after_mark now _ db.resetTokens h
    | exact atMostOne_insert_forgot now _ _ fx.nonce db _ (by assumption) h)

theorem ResetPassword_atMostOne (now nowOp : Nat) (tok newPw : String) (db : DBState)
    (h : AtMostOneActiveReset now db.resetTokens) :
    AtMostOneActiveReset now ((AuthService.ResetPassword nowOp tok newPw db).2.resetTokens) := by
  rcases hrun : AuthService.ResetPassword nowOp tok newPw db with ⟨r, db2⟩
  unfold AuthService.ResetPassword at hrun
  repeat' (first | (split at hrun) | (simp only [] at hrun))
  all_goals (injection hrun with h1 h2; subst h2)
  all_goals (first
    | exact h
    | exact atMostOne_after_save_used now _ db.resetTokens rfl h)

/-- C6: starting from a store in which each identity has at most one
unused, unexpired password-reset record, every operation of the auth
interface preserves that invariant; in particular `ForgotPassword` marks
all of the identity's prior unused tokens used before persisting the
single new one. -/
theorem C6_at_most_one_unused_reset_token (now : Nat) (db : DBState)
    (h : AtMostOneActiveReset now db.resetTokens) :
    (∀ (fx : AuthService.SignupFx) (secret : String) (req : AuthService.SignupRequest),
      AtMostOneActiveReset now ((AuthService.Signup fx secret req db).2.resetTokens)) ∧
    (∀ (fx : AuthService.LoginFx) (secret : String) (req : AuthService.LoginRequest),
      AtMostOneActiveReset now ((AuthService.Login fx secret req db).2.resetTokens)) ∧
    (∀ (fx : AuthService.RefreshFx) (secret : String) (tok : Utils.Jwt),
      AtMostOneActiveReset now ((AuthService.RefreshToken fx secret tok db).2.resetTokens)) ∧
    (∀ (tok : Utils.Jwt),
      AtMostOneActiveReset now ((AuthService.Logout tok db).2.resetTokens)) ∧
    (∀ (uid : Nat),
      AtMostOneActiveReset now ((AuthService.LogoutAll uid db).2.resetTokens)) ∧
    (∀ (fx : AuthService.ForgotFx) (email : String),
      AtMostOneActiveReset now ((AuthService.ForgotPassword fx email db).2.resetTokens)) ∧
    (∀ (nowOp : Nat) (tok : String),
      AtMostOneActiveReset now ((AuthService.ValidateResetToken nowOp tok db).2.resetTokens)) ∧
    (∀ (nowOp : Nat) (tok newPw : String),
      AtMostOneActiveReset now ((AuthService.ResetPassword nowOp tok newPw db).2.resetTokens)) ∧
    (∀ (uid : Nat) (cur newPw : String),
      AtMostOneActiveReset now ((AuthService.ChangePassword uid cur newPw db).2.resetTokens)) := by
  refine ⟨?_, ?_, ?_, ?_, ?_, ?_, ?_, ?_, ?_⟩
  · intro fx secret req
    rw [Signup_resetTokens]
    exact h
  · intro fx secret req
    rw [Login_resetTokens]
    exact h
  · intro fx secret tok
    rw [RefreshToken_resetTokens]
    exact h
  · intro tok
    rw [Logout_resetTokens]
    exact h
  · intro uid
    rw [LogoutAll_resetTokens]
    exact h
  · intro fx email
    exact ForgotPassword_atMostOne now fx email db h
  · intro nowOp tok
    rw [ValidateResetToken_resetTokens]
    exact h
  · intro nowOp tok newPw
    exact ResetPassword_atMostOne now nowOp tok newPw db h
  · intro uid cur newPw
    rw [ChangePassword_resetTokens]
    exact h

/-! ### Witnesses: the claim theorems applied at the concrete store -/

theorem C1_witness :
    (AuthService.RefreshToken Scenario.fxRW "s" Scenario.tW Scenario.db1W).1 =
      .error "invalid refresh token" ∨
    (AuthService.RefreshToken Scenario.fxRW "s" Scenario.tW Scenario.db1W).1 =
      .error "refresh token not found or expired" :=
  C1_refresh_one_time_use Scenario.fxRW Scenario.fxRW "s" Scenario.tW Scenario.db0W
    Scenario.db1W Scenario.respW (by unfold TokensUnique; decide) (by decide)

theorem C2_witness :
    (∀ r ∈ Scenario.db1W.refreshTokens, r.token = Scenario.tW → r.isRevoked = true) ∧
    (∀ r ∈ Scenario.db0W.refreshTokens, r.token = Scenario.tW →
      r.userId = Scenario.respW.user.id) ∧
    (∃ newRec ∈ Scenario.db1W.refreshTokens,
      newRec.token = Scenario.respW.token.refreshToken ∧
      newRec.isRevoked = false ∧ newRec.userId = Scenario.respW.user.id) ∧
    Scenario.db1W.refreshTokens.countP
      (fun r => decide (r.token = Scenario.respW.token.refreshToken)) = 1 :=
  (C2_refresh_rotation_atomic Scenario.fxRW "s" Scenario.tW Scenario.db0W
    (by unfold TokensUnique; decide)).2 Scenario.respW Scenario.db1W (by decide)

theorem C3_witness :
    ((AuthService.RefreshToken Scenario.fxRW "s" Scenario.tW Scenario.dbLW).1 =
        .error "invalid refresh token" ∨
     (AuthService.RefreshToken Scenario.fxRW "s" Scenario.tW Scenario.dbLW).1 =
        .error "invalid token type" ∨
     (AuthService.RefreshToken Scenario.fxRW "s" Scenario.tW Scenario.dbLW).1 =
        .error "refresh token not found or expired") ∧
    (∀ x ∈ Scenario.dbLW.refreshTokens, x.userId = Scenario.respLW.user.id →
      x.isRevoked = false → x.token = Scenario.respLW.token.refreshToken) :=
  C3_login_revokes_prior_sessions Scenario.fxLW Scenario.fxRW "s" Scenario.reqW
    Scenario.db0W Scenario.dbLW Scenario.respLW Scenario.tW ⟨1, 1, Scenario.tW, 604800, false⟩
    (by unfold TokensUnique; decide) (by decide) (by decide) (by decide) (by decide)

theorem C4_witness :
    AuthService.Login Scenario.fxLW "s" Scenario.reqW Scenario.dbEmptyW =
      (.error "invalid credentials", Scenario.dbEmptyW) :=
  (C4_login_uniform_invalid_credentials Scenario.fxLW "s" Scenario.reqW Scenario.dbEmptyW
    (by decide)).1 (by decide)

theorem C5_witness :
    ∃ rec, DB.findValidResetRec Scenario.dbRW "rt" 100 = some rec ∧
      (∀ u ∈ Scenario.dbR2W.users, u.id = rec.userId →
        u.password = Models.hashPassword "newpassword1") ∧
      (∀ r ∈ Scenario.dbR2W.resetTokens, r.token = "rt" → r.isUsed = true) ∧
      (∀ r ∈ Scenario.dbR2W.refreshTokens, r.userId = rec.userId → r.isRevoked = true) ∧
      (∀ (fx2 : AuthService.RefreshFx) (secret : String) (t : Utils.Jwt),
        (∃ rr ∈ Scenario.dbRW.refreshTokens, rr.token = t ∧ rr.userId = rec.userId) →
        ((AuthService.RefreshToken fx2 secret t Scenario.dbR2W).1 =
            .error "invalid refresh token" ∨
         (AuthService.RefreshToken fx2 secret t Scenario.dbR2W).1 =
            .error "invalid token type" ∨
         (AuthService.RefreshToken fx2 secret t Scenario.dbR2W).1 =
            .error "refresh token not found or expired")) :=
  C5_reset_password_effects 100 "rt" "newpassword1" Scenario.dbRW Scenario.dbR2W
    (by unfold TokensUnique; decide) (by unfold ResetTokensUnique; decide) (by decide)

theorem C6_witness :
    AtMostOneActiveReset 100
      ((AuthService.ForgotPassword Scenario.fxFW "a@b.co" Scenario.dbRW).2.resetTokens) :=
  (C6_at_most_one_unused_reset_token 100 Scenario.dbRW
    (by unfold AtMostOneActiveReset; decide)).2.2.2.2.2.1 Scenario.fxFW "a@b.co"

theorem C7_witness :
    ((AuthService.ForgotPassword Scenario.fxFW "a@b.co" Scenario.dbRW).1 = .ok ()) ∧
    (∀ b, AuthService.ForgotPassword { Scenario.fxFW with emailFails := b }
        "a@b.co" Scenario.dbRW =
      AuthService.ForgotPassword Scenario.fxFW "a@b.co" Scenario.dbRW) :=
  C7_forgot_password_enum_resistant Scenario.fxFW "a@b.co" Scenario.dbRW
    (by decide) (by decide) (by decide)

theorem C8_witness :
    ∃ c, Utils.ValidateToken Scenario.respLW.token.accessToken "s" 60 = some c ∧
      c.userID = Scenario.respLW.user.id ∧ c.email = Scenario.respLW.user.email ∧
      c.role = Scenario.respLW.user.role ∧ c.type = "access" :=
  C8_login_validate_roundtrip Scenario.fxLW "s" Scenario.reqW Scenario.db0W Scenario.dbLW
    Scenario.respLW 60 (by decide) (by decide) (by decide)

theorem C9_witness :
    AuthService.ChangePassword 1 "wrongpass" "newpassword1" Scenario.db0W =
      (.error "current password is incorrect", Scenario.db0W) :=
  C9_change_password_wrong_current_no_effect 1 "wrongpass" "newpassword1" Scenario.db0W
    Scenario.uW (by decide) (by decide) (by decide)

theorem C10_witness :
    AuthService.ForgotPassword ⟨0, "n", false, false⟩ "plainaddress" Scenario.db0W =
      (.error "invalid email format", Scenario.db0W) :=
  C10_forgot_password_rejects_malformed_email ⟨0, "n", false, false⟩ "plainaddress"
    Scenario.db0W (by decide)
